import Mathlib

/-!
Shallow embedding of the Carousel scroll / index / preload / auto-advance
coordinator from `components/carousel.tsx` (the `Carousel` React component).

The embedded pieces, each translated from the source:
- `clearAutoScrollTimer` / `startAutoScroll` — the timer lifecycle callbacks;
- `tick` — the body of the `setInterval` callback installed by
  `startAutoScroll` (it runs `setCurrentIndex(prev => ...)` and issues a
  `scrollTo` command);
- `handleScrollEnd` — the `onMomentumScrollEnd` handler;
- `onDataChange` — what a re-render with a new `data` reference does to the
  coordinator state (the auto-scroll effect re-runs; `currentIndex` is a
  `useState` cell and is untouched);
- `preloadEffectCalls` / `preloadImage` — the preloading `useEffect` and its
  inner async `preloadImage` helper.

JavaScript numeric operations are modelled as: offsets and widths are `ℚ`,
`Math.round` is `jsRound` (floor of x + 1/2, JS half-up rounding), and the
JS `%` operator on integers is `Int.tmod` (truncated remainder, which is
what JS `%` computes).
-/

namespace CarouselSpec

/-- JS `Math.round x`: `⌊x + 1/2⌋` (rounds half toward positive infinity). -/
def jsRound (q : ℚ) : ℤ := ⌊q + (1 : ℚ) / 2⌋

/-- The configuration props of the `Carousel` component that the coordinator
logic reads: `autoScroll`, `autoScrollInterval`, `enablePreloading`, the
viewport width `SCREEN_WIDTH`, and `n = data.length` (the dataset size,
which changes exactly when the `data` prop reference changes). -/
structure Config where
  autoScroll : Bool
  autoScrollInterval : ℕ
  enablePreloading : Bool
  screenWidth : ℚ
  n : ℕ
deriving DecidableEq

/-- The mutable coordinator state: `currentIndex` (the `useState(0)` cell,
called `activeIndex` in the specification) and `timerActive`
(`autoScrollTimer.current !== null`, i.e. whether the interval is set). -/
structure CState where
  currentIndex : ℤ
  timerActive : Bool
deriving DecidableEq

/-- Commands the coordinator issues to its collaborators: a
`scrollViewRef.current?.scrollTo({x, animated: true})` command to the host
scroll surface, and an `onImageChange(index, item)` notification. -/
inductive Cmd where
  | scrollTo (x : ℚ)
  | imageChange (i : ℤ)
deriving DecidableEq

/-- State at mount: `useState(0)` for the index, no timer installed yet. -/
def initState : CState := ⟨0, false⟩

/-- The `clearAutoScrollTimer` callback: `clearInterval` and null out the timer ref. -/
def clearAutoScrollTimer (s : CState) : CState :=
  { s with timerActive := false }

/-- The `startAutoScroll` callback: returns early when `!autoScroll || data.length <= 1`;
otherwise clears any existing timer and installs the interval. -/
def startAutoScroll (cfg : Config) (s : CState) : CState :=
  if cfg.autoScroll = false ∨ cfg.n ≤ 1 then s
  else { clearAutoScrollTimer s with timerActive := true }

/-- One firing opportunity of the interval installed by `startAutoScroll`.
When the timer is active the callback body runs:
`setCurrentIndex(prev => { const nextIndex = (prev + 1) % data.length;
scrollViewRef.current?.scrollTo({x: nextIndex * SCREEN_WIDTH, ...});
return nextIndex; })` — i.e. it directly writes the index state AND issues
the scroll command. When no timer is installed nothing happens. -/
def tick (cfg : Config) (s : CState) : CState × List Cmd :=
  if s.timerActive then
    let nextIndex : ℤ := (s.currentIndex + 1).tmod (cfg.n : ℤ)
    ({ s with currentIndex := nextIndex },
      [Cmd.scrollTo (nextIndex * cfg.screenWidth)])
  else (s, [])

/-- Run `N` consecutive tick opportunities, accumulating issued commands. -/
def runTicks (cfg : Config) : ℕ → CState → CState × List Cmd
  | 0, s => (s, [])
  | N + 1, s =>
      let r := tick cfg s
      let r2 := runTicks cfg N r.1
      (r2.1, r.2 ++ r2.2)

/-- The `handleScrollEnd` callback (the `onMomentumScrollEnd` handler):
`newIndex = Math.round(contentOffset.x / SCREEN_WIDTH)`; only when
`newIndex !== currentIndex && newIndex >= 0 && newIndex < data.length`
does it `setCurrentIndex(newIndex)` and fire `onImageChange`. An
out-of-range computed index takes the other branch: nothing happens.
(The optional haptic side effect carries no state and is not modelled.) -/
def handleScrollEnd (cfg : Config) (s : CState) (contentOffset : ℚ) :
    CState × List Cmd :=
  let newIndex : ℤ := jsRound (contentOffset / cfg.screenWidth)
  if newIndex ≠ s.currentIndex ∧ 0 ≤ newIndex ∧ newIndex < (cfg.n : ℤ) then
    ({ s with currentIndex := newIndex }, [Cmd.imageChange newIndex])
  else (s, [])

/-- Fold a sequence of momentum-scroll-settle events over the state. -/
def settleRun (cfg : Config) (s : CState) (offs : List ℚ) : CState :=
  offs.foldl (fun t o => (handleScrollEnd cfg t o).1) s

/-- What a re-render with a new `data` prop reference does to the
coordinator: `data.length` is re-read (the new `n`), the auto-scroll effect
re-runs (its cleanup `clearAutoScrollTimer`, then `startAutoScroll` when
`autoScroll` is set). The `currentIndex` `useState` cell is not written by
anything on this path. -/
def onDataChange (cfg : Config) (newN : ℕ) (s : CState) : Config × CState :=
  let cfg2 : Config := { cfg with n := newN }
  let s2 := clearAutoScrollTimer s
  (cfg2, if cfg2.autoScroll then startAutoScroll cfg2 s2 else s2)

/-- The `if (index >= 0 && index < data.length)` guard inside
`preloadImage`: the prefetch call issued for `i`, as a (possibly empty)
list of prefetched indices. -/
def inRangeCall (n : ℕ) (i : ℤ) : List ℤ :=
  if 0 ≤ i ∧ i < (n : ℤ) then [i] else []

/-- The preloading `useEffect` body, as the ordered list of indices passed
to `Image.prefetch`: it returns early when
`!enablePreloading || data.length <= 1`; otherwise it calls
`preloadImage(currentIndex - 1)`, `preloadImage(currentIndex + 1)`, and —
whenever `autoScroll` is set — `preloadImage((currentIndex + 2) % data.length)`.
No bookkeeping of already-pending indices exists in the source. -/
def preloadEffectCalls (cfg : Config) (k : ℤ) : List ℤ :=
  if cfg.enablePreloading = false ∨ cfg.n ≤ 1 then []
  else
    inRangeCall cfg.n (k - 1) ++ inRangeCall cfg.n (k + 1) ++
      (if cfg.autoScroll then inRangeCall cfg.n ((k + 2).tmod (cfg.n : ℤ))
       else [])

/-- All prefetch calls issued over a sequence of active-index values (one
run of the preload effect per index change). -/
def allPreloadCalls (cfg : Config) (ks : List ℤ) : List ℤ :=
  ks.foldr (fun k acc => preloadEffectCalls cfg k ++ acc) []

/-- The set of distinct indices the preload effect prefetches. -/
def codePreloadSet (cfg : Config) (k : ℤ) : Finset ℤ :=
  (preloadEffectCalls cfg k).toFinset

/-- Observable events of one `preloadImage(index)` call: the
`Image.prefetch` request starting, the `console.warn` on failure, and the
async function resolving (after which the prefetch is no longer in
flight). -/
inductive PEvent where
  | prefetchOf (i : ℤ)
  | warnOf (i : ℤ)
  | doneOf (i : ℤ)
deriving DecidableEq

/-- The async `preloadImage` helper: inside the range guard it awaits
`Image.prefetch(item.source)` inside `try { ... } catch { console.warn(...) }`
and then resolves; the returned promise always fulfills — the catch block
swallows the failure. `prefetchFails` says whether the awaited prefetch
rejects. The result is the value seen by the caller (always `ok`) together
with the emitted event trace. -/
def preloadImage (n : ℕ) (i : ℤ) (prefetchFails : Bool) :
    Except String Unit × List PEvent :=
  if 0 ≤ i ∧ i < (n : ℤ) then
    (Except.ok (),
      [PEvent.prefetchOf i] ++ (if prefetchFails then [PEvent.warnOf i] else [])
        ++ [PEvent.doneOf i])
  else (Except.ok (), [])

/-- Index `i` is still pending (in flight) after trace `tr`: more prefetch
requests for `i` were started than have resolved. -/
def pendingAfter (tr : List PEvent) (i : ℤ) : Prop :=
  tr.count (PEvent.doneOf i) < tr.count (PEvent.prefetchOf i)

instance (tr : List PEvent) (i : ℤ) : Decidable (pendingAfter tr i) := by
  unfold pendingAfter; infer_instance

/-- Modelled from the spec: the clamping variant of `onScrollSettled` that
the specification describes — "Computes `newIndex = round(offsetPixels /
viewportWidth)`, clamped to `[0, itemCount-1]`", with the update and
notification firing whenever the clamped index differs from the active
index. Used only to compare the description in the spec against
`handleScrollEnd`. -/
def specOnScrollSettledClamped (cfg : Config) (s : CState)
    (contentOffset : ℚ) : CState × List Cmd :=
  let raw : ℤ := jsRound (contentOffset / cfg.screenWidth)
  let newIndex : ℤ := max 0 (min raw ((cfg.n : ℤ) - 1))
  if newIndex ≠ s.currentIndex then
    ({ s with currentIndex := newIndex }, [Cmd.imageChange newIndex])
  else (s, [])

/-- Modelled from the spec: `recomputeFor(activeIndex, itemCount,
autoAdvanceEnabled)` — "always includes `activeIndex-1` and `activeIndex+1`
(indices outside `[0, itemCount-1]` are dropped ...); additionally includes
`(activeIndex+2) mod itemCount` when `autoAdvanceEnabled` is true and
`itemCount > 2`". Used only to compare the description in the spec against
`codePreloadSet`. -/
def specRecomputeFor (k : ℤ) (n : ℕ) (autoAdvanceEnabled : Bool) : Finset ℤ :=
  (({k - 1, k + 1} : Finset ℤ).filter (fun i => 0 ≤ i ∧ i < (n : ℤ))) ∪
    (if autoAdvanceEnabled = true ∧ 2 < n then {(k + 2) % (n : ℤ)} else ∅)

/-- Sample configuration: 3 items, auto-scroll and preloading on,
viewport width 300. -/
def cfgA : Config := ⟨true, 3000, true, 300, 3⟩

/-- Sample configuration: 2 items, auto-scroll and preloading on. -/
def cfgB : Config := ⟨true, 3000, true, 300, 2⟩

/-- Sample configuration: 4 items, auto-scroll off, preloading on. -/
def cfgD : Config := ⟨false, 3000, true, 300, 4⟩

/-- Sample configuration: 5 items, auto-scroll and preloading on. -/
def cfgF : Config := ⟨true, 3000, true, 300, 5⟩

/-- Sample configuration: preloading disabled. -/
def cfgG : Config := ⟨true, 3000, false, 300, 4⟩

/-- Tick equation while the interval is installed. -/
theorem tick_timerActive (cfg : Config) (s : CState) (h : s.timerActive = true) :
    tick cfg s =
      ({ s with currentIndex := (s.currentIndex + 1).tmod (cfg.n : ℤ) },
        [Cmd.scrollTo ((s.currentIndex + 1).tmod (cfg.n : ℤ) * cfg.screenWidth)]) := by
  simp [tick, h]

/-- Closed form of a run of tick opportunities from an in-range index with
the timer installed, for a dataset of more than one item. -/
theorem runTicks_timerActive_eq (cfg : Config) (hn : 1 < cfg.n) :
    ∀ (N : ℕ) (i : ℤ), 0 ≤ i → i < (cfg.n : ℤ) →
      runTicks cfg N ⟨i, true⟩ =
        (⟨(i + (N : ℤ)) % (cfg.n : ℤ), true⟩,
          (List.range N).map
            (fun j : ℕ =>
              Cmd.scrollTo ((((i + (j : ℤ) + 1) % (cfg.n : ℤ) : ℤ) : ℚ) * cfg.screenWidth)))
  | 0, i, h0, h1 => by
      simp only [runTicks, List.range_zero, List.map_nil, Nat.cast_zero, add_zero]
      rw [Int.emod_eq_of_lt h0 h1]
  | N + 1, i, h0, h1 => by
      have hpos : (0 : ℤ) < (cfg.n : ℤ) := by exact_mod_cast Nat.zero_lt_of_lt hn
      have htm : (i + 1).tmod (cfg.n : ℤ) = (i + 1) % (cfg.n : ℤ) :=
        Int.tmod_eq_emod (by omega) (by omega)
      have h20 : 0 ≤ (i + 1) % (cfg.n : ℤ) := Int.emod_nonneg _ (by omega)
      have h21 : (i + 1) % (cfg.n : ℤ) < (cfg.n : ℤ) := Int.emod_lt_of_pos _ hpos
      have ih := runTicks_timerActive_eq cfg hn N ((i + 1) % (cfg.n : ℤ)) h20 h21
      simp only [runTicks, tick_timerActive cfg ⟨i, true⟩ rfl, htm, ih,
        List.singleton_append, List.cons_append, List.nil_append]
      have e1 : ((i + 1) % (cfg.n : ℤ) + (N : ℤ)) % (cfg.n : ℤ) =
          (i + ((N + 1 : ℕ) : ℤ)) % (cfg.n : ℤ) := by
        rw [Int.emod_add_emod]
        congr 1
        push_cast
        ring
      have e2 : ∀ j : ℕ,
          ((i + 1) % (cfg.n : ℤ) + (j : ℤ) + 1) % (cfg.n : ℤ) =
            (i + ((j + 1 : ℕ) : ℤ) + 1) % (cfg.n : ℤ) := by
        intro j
        rw [show (i + 1) % (cfg.n : ℤ) + (j : ℤ) + 1 =
            (i + 1) % (cfg.n : ℤ) + ((j : ℤ) + 1) by ring, Int.emod_add_emod]
        congr 1
        push_cast
        ring
      rw [e1, List.range_succ_eq_map, List.map_cons, List.map_map]
      refine Prod.ext rfl ?_
      dsimp only
      congr 1
      case e_head => norm_num
      case e_tail =>
        refine List.map_congr_left fun j hj => ?_
        simp only [Function.comp_apply]
        rw [e2 j]

/-- Turning the timer on from a stopped state, when auto-scroll is enabled
and there is more than one item. -/
theorem startAutoScroll_starts (cfg : Config) (i : ℤ) (ha : cfg.autoScroll = true)
    (hn : 1 < cfg.n) : startAutoScroll cfg ⟨i, false⟩ = ⟨i, true⟩ := by
  simp [startAutoScroll, clearAutoScrollTimer, ha]
  omega

/-- The settle handler keeps the active index inside `[0, itemCount)`. -/
theorem handleScrollEnd_idx_bounds (cfg : Config) (s : CState) (off : ℚ)
    (h0 : 0 ≤ s.currentIndex) (h1 : s.currentIndex < (cfg.n : ℤ)) :
    0 ≤ (handleScrollEnd cfg s off).1.currentIndex ∧
      (handleScrollEnd cfg s off).1.currentIndex < (cfg.n : ℤ) := by
  simp only [handleScrollEnd]
  split_ifs with h
  · exact ⟨h.2.1, h.2.2⟩
  · exact ⟨h0, h1⟩

/-- A whole sequence of settle events keeps the active index in range. -/
theorem settleRun_bounds (cfg : Config) :
    ∀ (offs : List ℚ) (s : CState), 0 ≤ s.currentIndex →
      s.currentIndex < (cfg.n : ℤ) →
      0 ≤ (settleRun cfg s offs).currentIndex ∧
        (settleRun cfg s offs).currentIndex < (cfg.n : ℤ)
  | [], s, h0, h1 => by simpa [settleRun] using ⟨h0, h1⟩
  | o :: offs, s, h0, h1 => by
      have h := handleScrollEnd_idx_bounds cfg s o h0 h1
      simpa [settleRun] using settleRun_bounds cfg offs _ h.1 h.2

/-- Membership in the range-guarded prefetch call of `preloadImage`. -/
theorem mem_inRangeCall (n : ℕ) (j i : ℤ) :
    i ∈ inRangeCall n j ↔ i = j ∧ 0 ≤ j ∧ j < (n : ℤ) := by
  unfold inRangeCall
  split_ifs with h <;> simp_all

/-- Number of prefetch calls `preloadImage(j)` contributes for index `i`. -/
theorem count_inRangeCall (n : ℕ) (j i : ℤ) :
    (inRangeCall n j).count i = if i = j ∧ 0 ≤ j ∧ j < (n : ℤ) then 1 else 0 := by
  unfold inRangeCall
  by_cases hr : 0 ≤ j ∧ j < (n : ℤ)
  · rw [if_pos hr]
    by_cases he : i = j
    · subst he
      rw [if_pos ⟨rfl, hr⟩]
      simp
    · rw [if_neg (by tauto)]
      simp [List.count_cons, he]
  · rw [if_neg hr, if_neg (by tauto)]
    simp

/-- Claim C6 (confirmed): for every `itemCount > 1`, every start index `i`
with `0 ≤ i < itemCount`, and every `N ≥ 0`, running `N` auto-advance ticks
with no drag events yields `activeIndex = (i + N) mod itemCount`, each tick
computing `nextIndex = (activeIndex + 1) mod itemCount` and issuing a
scroll command for it (wraparound, always forward): the command of tick `j`
targets offset `((i + j + 1) mod itemCount) * screenWidth`. -/
theorem c6_auto_advance_ticks (cfg : Config) (ha : cfg.autoScroll = true)
    (hn : 1 < cfg.n) (i : ℤ) (h0 : 0 ≤ i) (h1 : i < (cfg.n : ℤ)) (N : ℕ) :
    (runTicks cfg N (startAutoScroll cfg ⟨i, false⟩)).1.currentIndex =
        (i + (N : ℤ)) % (cfg.n : ℤ) ∧
      (runTicks cfg N (startAutoScroll cfg ⟨i, false⟩)).2 =
        (List.range N).map
          (fun j : ℕ =>
            Cmd.scrollTo ((((i + (j : ℤ) + 1) % (cfg.n : ℤ) : ℤ) : ℚ) *
              cfg.screenWidth)) := by
  rw [startAutoScroll_starts cfg i ha hn, runTicks_timerActive_eq cfg hn N i h0 h1]
  exact ⟨rfl, rfl⟩

/-- Witness for C6: three items, start index 1, four ticks land on index
`(1 + 4) mod 3 = 2`. -/
theorem c6_auto_advance_ticks_witness :
    (runTicks cfgA 4 (startAutoScroll cfgA ⟨1, false⟩)).1.currentIndex = 2 := by
  have h := (c6_auto_advance_ticks cfgA rfl (by decide) 1 (by decide) (by decide) 4).1
  rw [h]
  decide

/-- Claim C7 (confirmed): after a drag-begin (the `onScrollBeginDrag`
handler, which is exactly `clearAutoScrollTimer`), any amount of elapsed
tick time produces zero index changes and zero scroll commands:
the state is unchanged and no command is issued, for every state and every
number of tick opportunities. -/
theorem c7_drag_pauses_ticks (cfg : Config) (s : CState) (N : ℕ) :
    runTicks cfg N (clearAutoScrollTimer s) = (clearAutoScrollTimer s, []) := by
  induction N with
  | zero => rfl
  | succ N ih =>
      have ht : tick cfg (clearAutoScrollTimer s) = (clearAutoScrollTimer s, []) := by
        simp [tick, clearAutoScrollTimer]
      simp [runTicks, ht, ih]

/-- Claim C8 (confirmed): for every `itemCount > 0` and every finite
sequence of settle events (arbitrary rational offsets, including negative
and past-the-end ones), the active index stays in `[0, itemCount)` starting
from the initial state. -/
theorem c8_bounds_invariant (cfg : Config) (hn : 0 < cfg.n) (offs : List ℚ) :
    0 ≤ (settleRun cfg initState offs).currentIndex ∧
      (settleRun cfg initState offs).currentIndex < (cfg.n : ℤ) :=
  settleRun_bounds cfg offs initState le_rfl (show (0:ℤ) < (cfg.n:ℤ) by exact_mod_cast hn)

/-- Witness for C8: three items, a past-the-end offset, a negative offset
and an in-range offset. -/
theorem c8_bounds_invariant_witness :
    0 < cfgA.n ∧
      (0 ≤ (settleRun cfgA initState [900, -500, 450]).currentIndex ∧
        (settleRun cfgA initState [900, -500, 450]).currentIndex < (cfgA.n : ℤ)) :=
  ⟨by decide, c8_bounds_invariant cfgA (by decide) [900, -500, 450]⟩

/-- Counterexample for C1: the claim says the scheduler never writes
`activeIndex` directly — a tick only issues a scroll command and the index
stays put until the settle path updates it. On the concrete reachable state
(3 items, timer running, index 0) a single tick moves `currentIndex` to 1
by itself, with no settle event involved. -/
theorem c1_single_writer_counterexample :
    (tick cfgA ⟨0, true⟩).1.currentIndex ≠ (CState.mk 0 true).currentIndex := by
  decide

/-- Claim C1 (corrected): `activeIndex` has two direct writers, not one.
`clearAutoScrollTimer` and `startAutoScroll` never change it, but each tick
of the running scheduler both writes
`currentIndex := (currentIndex + 1) % itemCount` directly (inside its
`setCurrentIndex` updater) and issues the scroll command for that target in
the same step. -/
theorem c1_single_writer_amended (cfg : Config) (s : CState) :
    (clearAutoScrollTimer s).currentIndex = s.currentIndex ∧
      (startAutoScroll cfg s).currentIndex = s.currentIndex ∧
      (s.timerActive = true →
        (tick cfg s).1.currentIndex = (s.currentIndex + 1).tmod (cfg.n : ℤ) ∧
          (tick cfg s).2 =
            [Cmd.scrollTo ((s.currentIndex + 1).tmod (cfg.n : ℤ) * cfg.screenWidth)]) := by
  refine ⟨rfl, ?_, fun h => ?_⟩
  · unfold startAutoScroll clearAutoScrollTimer
    split_ifs <;> rfl
  · rw [tick_timerActive cfg s h]
    exact ⟨rfl, rfl⟩

/-- Witness for C1 (amended): on the running 3-item state at index 0, the
tick writes index `(0 + 1) % 3` directly. -/
theorem c1_single_writer_amended_witness :
    (tick cfgA ⟨0, true⟩).1.currentIndex = ((0 : ℤ) + 1).tmod (cfgA.n : ℤ) :=
  ((c1_single_writer_amended cfgA ⟨0, true⟩).2.2 rfl).1

/-- Counterexample for C2: the claim says an out-of-range computed index is
clamped to the nearest valid index and may still cause an index change,
never ignored. With 2 items, viewport width 300 and initial index 0, a
settle at offset 600 computes `round(600/300) = 2`; the clamping behaviour
the claim describes would move the index to 1 and notify, but the code
ignores the event entirely (state unchanged, no notification). -/
theorem c2_settle_clamp_counterexample :
    handleScrollEnd cfgB initState 600 = (initState, []) ∧
      (specOnScrollSettledClamped cfgB initState 600).1.currentIndex = 1 ∧
      handleScrollEnd cfgB initState 600 ≠ specOnScrollSettledClamped cfgB initState 600 := by
  have h : jsRound ((600 : ℚ) / 300) = 2 := by norm_num [jsRound]
  refine ⟨?_, ?_, ?_⟩ <;>
    simp [handleScrollEnd, specOnScrollSettledClamped, h, initState, cfgB]

/-- Claim C2 (corrected): for every settle event, `handleScrollEnd`
computes `newIndex = round(offsetPixels / viewportWidth)`; when `newIndex`
is outside `[0, itemCount-1]` the event is ignored (state unchanged, no
notification — there is no clamping); when it is in range and equal to the
active index nothing fires; when it is in range and different, the index is
updated to `newIndex` and exactly one change notification is issued. -/
theorem c2_settle_amended (cfg : Config) (s : CState) (off : ℚ) :
    ((jsRound (off / cfg.screenWidth) < 0 ∨
        (cfg.n : ℤ) ≤ jsRound (off / cfg.screenWidth)) →
      handleScrollEnd cfg s off = (s, [])) ∧
    (jsRound (off / cfg.screenWidth) = s.currentIndex →
      handleScrollEnd cfg s off = (s, [])) ∧
    ((0 ≤ jsRound (off / cfg.screenWidth) ∧
        jsRound (off / cfg.screenWidth) < (cfg.n : ℤ) ∧
        jsRound (off / cfg.screenWidth) ≠ s.currentIndex) →
      handleScrollEnd cfg s off =
        ({ s with currentIndex := jsRound (off / cfg.screenWidth) },
          [Cmd.imageChange (jsRound (off / cfg.screenWidth))])) := by
  refine ⟨fun h => ?_, fun h => ?_, fun h => ?_⟩ <;>
    simp only [handleScrollEnd] <;> split_ifs with hc <;>
    first
      | rfl
      | (exfalso; omega)

/-- Witness for C2 (amended): the out-of-range settle (2 items, offset 600,
computed index 2) is ignored. -/
theorem c2_settle_amended_witness :
    handleScrollEnd cfgB initState 600 = (initState, []) := by
  have h : jsRound ((600 : ℚ) / 300) = 2 := by norm_num [jsRound]
  refine (c2_settle_amended cfgB initState 600).1 (Or.inr ?_)
  show (cfgB.n : ℤ) ≤ jsRound (600 / cfgB.screenWidth)
  simp only [cfgB]
  rw [h]
  decide

/-- Counterexample for C4: the claim says a dataset change resets
`activeIndex` to its initial value 0. Concretely: 4 items, settle at offset
900 moves the index to 3; replacing the dataset (new length 2) leaves
`currentIndex` at 3 — the index from the previous dataset is retained (and is even
out of range for the new dataset). -/
theorem c4_dataset_reset_counterexample :
    (onDataChange cfgD 2 (settleRun cfgD initState [900])).2.currentIndex = 3 ∧
      initState.currentIndex = 0 := by
  have h : jsRound ((900 : ℚ) / 300) = 3 := by norm_num [jsRound]
  constructor
  · simp [onDataChange, settleRun, handleScrollEnd, h, initState, cfgD,
      startAutoScroll, clearAutoScrollTimer]
  · rfl

/-- Claim C4 (corrected): on a dataset reference change, `itemCount` is
recomputed from the new dataset, but `activeIndex` is NOT reset — the
`currentIndex` state cell keeps its previous value for every old state and
every new dataset (even when that value is out of range for the new
dataset). -/
theorem c4_dataset_reset_amended (cfg : Config) (newN : ℕ) (s : CState) :
    (onDataChange cfg newN s).1.n = newN ∧
      (onDataChange cfg newN s).2.currentIndex = s.currentIndex := by
  refine ⟨rfl, ?_⟩
  simp only [onDataChange, startAutoScroll, clearAutoScrollTimer]
  split_ifs <;> rfl

/-- Counterexample for C3: the claim says requesting preload twice for the
same pending index issues exactly one prefetch call, never a duplicate
concurrent prefetch. With 3 items, auto-scroll on and active index 1, one
run of the preload effect calls `Image.prefetch` for index 0 twice (once as
`currentIndex - 1` and once as `(currentIndex + 2) % 3`), so the
at-most-one-call property is false. -/
theorem c3_preload_idempotence_counterexample :
    ¬ (preloadEffectCalls cfgA 1).count 0 ≤ 1 := by
  decide

/-- Claim C3 (corrected): the code keeps no pending-preload bookkeeping and
does not deduplicate: one run of the preload effect issues one prefetch
call per in-range occurrence among `currentIndex - 1`, `currentIndex + 1`
and (with auto-scroll) `(currentIndex + 2) % itemCount` — so the number of
prefetch calls for index `i` is the sum of those three indicator terms, and
the same index can be prefetched twice concurrently when the look-ahead
index coincides with an adjacent one. -/
theorem c3_preload_idempotence_amended (cfg : Config) (k i : ℤ)
    (hp : cfg.enablePreloading = true) (h1 : 1 < cfg.n) :
    (preloadEffectCalls cfg k).count i =
      (if i = k - 1 ∧ 0 ≤ k - 1 ∧ k - 1 < (cfg.n : ℤ) then 1 else 0) +
        (if i = k + 1 ∧ 0 ≤ k + 1 ∧ k + 1 < (cfg.n : ℤ) then 1 else 0) +
        (if cfg.autoScroll = true ∧ i = (k + 2).tmod (cfg.n : ℤ) ∧
            0 ≤ (k + 2).tmod (cfg.n : ℤ) ∧ (k + 2).tmod (cfg.n : ℤ) < (cfg.n : ℤ)
          then 1 else 0) := by
  unfold preloadEffectCalls
  rw [if_neg (by simp [hp]; omega)]
  rw [List.count_append, List.count_append, count_inRangeCall, count_inRangeCall]
  cases hauto : cfg.autoScroll
  · simp [count_inRangeCall]
  · simp [count_inRangeCall]

/-- Witness for C3 (amended): 3 items, auto-scroll, active index 1 — index
0 receives `1 + 0 + 1 = 2` prefetch calls. -/
theorem c3_preload_idempotence_amended_witness :
    (preloadEffectCalls cfgA 1).count 0 = 2 := by
  rw [c3_preload_idempotence_amended cfgA 1 0 rfl (by decide)]
  decide

/-- Counterexample for C5: the claim adds the look-ahead index
`(k+2) mod itemCount` only when `itemCount > 2`. With 2 items, auto-scroll
on and `k = 0`, the code also prefetches `(0+2) mod 2 = 0` (the current
index itself), so the preload set of the code `{0, 1}` differs from the claimed
set `{1}`. -/
theorem c5_preload_set_counterexample :
    codePreloadSet cfgB 0 ≠ specRecomputeFor 0 2 true := by
  decide

/-- Claim C5 (corrected): with preloading enabled and an in-range active
index `k`, the preload set is `{k-1, k+1} ∩ [0, itemCount-1]` (no
wraparound for adjacency), plus the look-ahead `(k+2) mod itemCount`
whenever auto-scroll is on and `itemCount > 1` — not only for
`itemCount > 2`; for `itemCount = 2` the look-ahead equals `k` itself and
is still prefetched. (For `n = 5`, `k = 2`, auto-scroll on this gives
`{1, 3, 4}`, as the example in the claim states.) -/
theorem c5_preload_set_amended (cfg : Config) (k : ℤ)
    (hp : cfg.enablePreloading = true) (hk0 : 0 ≤ k) (hkn : k < (cfg.n : ℤ))
    (i : ℤ) :
    i ∈ codePreloadSet cfg k ↔
      ((i = k - 1 ∨ i = k + 1) ∧ 0 ≤ i ∧ i < (cfg.n : ℤ)) ∨
        (cfg.autoScroll = true ∧ 1 < cfg.n ∧ i = (k + 2) % (cfg.n : ℤ)) := by
  unfold codePreloadSet preloadEffectCalls
  by_cases hn : cfg.n ≤ 1
  · rw [if_pos (Or.inr hn)]
    simp only [List.toFinset_nil, Finset.not_mem_empty, false_iff]
    rintro (⟨he, hi0, hin⟩ | ⟨-, h2, -⟩) <;> omega
  · rw [if_neg (by simp [hp]; omega)]
    have hpos : (0 : ℤ) < (cfg.n : ℤ) := by omega
    have htm : (k + 2).tmod (cfg.n : ℤ) = (k + 2) % (cfg.n : ℤ) :=
      Int.tmod_eq_emod (by omega) (by omega)
    have ht0 : 0 ≤ (k + 2) % (cfg.n : ℤ) := Int.emod_nonneg _ (by omega)
    have ht1 : (k + 2) % (cfg.n : ℤ) < (cfg.n : ℤ) := Int.emod_lt_of_pos _ hpos
    have h1n : 1 < cfg.n := by omega
    rw [List.mem_toFinset]
    generalize hM : (k + 2) % (cfg.n : ℤ) = M at htm ht0 ht1
    cases hauto : cfg.autoScroll
    · simp only [Bool.false_eq_true, if_false, List.append_nil, List.mem_append,
        mem_inRangeCall, false_and, or_false]
      omega
    · simp only [if_true, List.mem_append, mem_inRangeCall, htm, true_and]
      omega

/-- Witness for C5 (amended): 5 items, auto-scroll on, active index 2 —
the look-ahead index `(2 + 2) % 5 = 4` is in the preload set. -/
theorem c5_preload_set_amended_witness :
    (4 : ℤ) ∈ codePreloadSet cfgF 2 :=
  (c5_preload_set_amended cfgF 2 rfl (by decide) (by decide) 4).mpr
    (Or.inr ⟨rfl, by decide, by decide⟩)

/-- Claim C9 (confirmed): for an in-range index whose prefetch fails, the
failure is swallowed: `preloadImage` still resolves successfully for its
caller, exactly one warning is emitted to the error reporter, exactly one
prefetch call is made (no automatic retry), and afterwards the index is no
longer pending (every started prefetch for it has completed). -/
theorem c9_prefetch_failure_swallowed (n : ℕ) (i : ℤ) (h0 : 0 ≤ i)
    (h1 : i < (n : ℤ)) :
    (preloadImage n i true).1 = Except.ok () ∧
      ((preloadImage n i true).2).count (PEvent.warnOf i) = 1 ∧
      ((preloadImage n i true).2).count (PEvent.prefetchOf i) = 1 ∧
      ¬ pendingAfter (preloadImage n i true).2 i := by
  unfold preloadImage pendingAfter
  rw [if_pos ⟨h0, h1⟩]
  refine ⟨rfl, ?_, ?_, ?_⟩ <;> simp [List.count_cons]

/-- Witness for C9: index 1 of a 3-item dataset with a failing prefetch. -/
theorem c9_prefetch_failure_swallowed_witness :
    (preloadImage 3 1 true).1 = Except.ok () ∧
      ((preloadImage 3 1 true).2).count (PEvent.warnOf 1) = 1 ∧
      ((preloadImage 3 1 true).2).count (PEvent.prefetchOf 1) = 1 ∧
      ¬ pendingAfter (preloadImage 3 1 true).2 1 :=
  c9_prefetch_failure_swallowed 3 1 (by decide) (by decide)

/-- Claim C10 (confirmed): when `enablePreloading` is false, the preload
effect returns before computing anything, so no prefetch request is ever
issued, for any dataset size, any sequence of active-index values and any
auto-scroll setting. -/
theorem c10_preloading_disabled (cfg : Config) (hp : cfg.enablePreloading = false)
    (ks : List ℤ) : allPreloadCalls cfg ks = [] := by
  induction ks with
  | nil => rfl
  | cons k ks ih =>
      show preloadEffectCalls cfg k ++ allPreloadCalls cfg ks = []
      rw [ih, List.append_nil]
      unfold preloadEffectCalls
      rw [if_pos (Or.inl hp)]

/-- Witness for C10: preloading disabled, three index changes, auto-scroll
on — zero prefetch calls. -/
theorem c10_preloading_disabled_witness :
    cfgG.enablePreloading = false ∧ allPreloadCalls cfgG [0, 1, 2] = [] :=
  ⟨rfl, c10_preloading_disabled cfgG rfl [0, 1, 2]⟩

end CarouselSpec
